import Mathlib

/-!
Shallow embedding of the crypto-price aggregation service.

The repository holds two near-duplicate Go deployments of the same logic:
`main.go` (package main, gin server) and `api/index.go` (package handler,
serverless handler).  Both are embedded below, namespaces `Main` and `Api`.

Modelling conventions:
  * The network is an oracle `Network : String → HttpResult` mapping a URL to
    either a transport failure (`http.Get` error) or a status code with a
    decoded-JSON body.  JSON numbers are modelled as exact rationals.
  * `encoding/json` decoding is modelled atomically: on a decode failure the
    Go target variable keeps its zero value, matching the observable use in
    this code (the partially-populated struct is never read on error paths).
  * Go's `strings.ToUpper` is modelled by Lean's `String.toUpper`; the two
    agree on the ASCII symbols this service manipulates.
  * Each adapter result also records the list of URLs it actually requested,
    so that "fails before issuing any network call" is a statable property.
-/

/-- JSON values, with numbers as exact rationals. -/
inductive Json where
  | null : Json
  | bool (b : Bool) : Json
  | num (q : Rat) : Json
  | str (s : String) : Json
  | arr (xs : List Json) : Json
  | obj (fields : List (String × Json)) : Json

/-- First-match association-list lookup (JSON object fields, Go maps). -/
def lookupKey {α : Type} (m : List (String × α)) (k : String) : Option α :=
  (m.find? (fun p => p.1 == k)).map (fun p => p.2)

/-- Go map read: the zero value `z` when the key is absent. -/
def goRead {α : Type} (m : List (String × α)) (k : String) (z : α) : α :=
  (lookupKey m k).getD z

/-- Decode a JSON value into a Go `string` (JSON `null` keeps the zero value). -/
def decodeString : Json → Option String
  | Json.str s => some s
  | Json.null => some ""
  | _ => none

/-- Decode a JSON value into a Go `float64`. -/
def decodeFloat : Json → Option Rat
  | Json.num q => some q
  | Json.null => some 0
  | _ => none

/-- Decode a JSON value into a Go `[]string`. -/
def decodeStringList : Json → Option (List String)
  | Json.arr xs => xs.mapM decodeString
  | Json.null => some []
  | _ => none

/-- Decode a JSON value into a Go `map[string]float64`. -/
def decodeMapFloat : Json → Option (List (String × Rat))
  | Json.obj fs => fs.mapM (fun p => (decodeFloat p.2).map (fun v => (p.1, v)))
  | Json.null => some []
  | _ => none

/-- Decode target of the Binance adapter: `struct { Price string }`.
An absent `price` field leaves the zero value `""`. -/
def decodeBinance : Json → Option String
  | Json.obj fs =>
    match lookupKey fs "price" with
    | none => some ""
    | some v => decodeString v
  | Json.null => some ""
  | _ => none

/-- Decode target of the CoinGecko adapter: `map[string]map[string]float64`. -/
def decodeCoinGecko : Json → Option (List (String × List (String × Rat)))
  | Json.obj fs => fs.mapM (fun p => (decodeMapFloat p.2).map (fun v => (p.1, v)))
  | Json.null => some []
  | _ => none

/-- One Kraken ticker entry: `struct { C []string }`. -/
structure KrakenTicker where
  c : List String

/-- Decode target of the Kraken adapter's inner entries. -/
def decodeKrakenTicker : Json → Option KrakenTicker
  | Json.obj fs =>
    match lookupKey fs "c" with
    | none => some ⟨[]⟩
    | some v => (decodeStringList v).map (fun l => ⟨l⟩)
  | Json.null => some ⟨[]⟩
  | _ => none

/-- Kraken response shape: `struct { Result map[string]struct{ C []string } }`. -/
structure KrakenBody where
  result : List (String × KrakenTicker)

/-- Decode target of the Kraken adapter. -/
def decodeKraken : Json → Option KrakenBody
  | Json.obj fs =>
    match lookupKey fs "result" with
    | none => some ⟨[]⟩
    | some (Json.obj gs) =>
      (gs.mapM (fun p => (decodeKrakenTicker p.2).map (fun v => (p.1, v)))).map
        (fun l => ⟨l⟩)
    | some Json.null => some ⟨[]⟩
    | some _ => none
  | Json.null => some ⟨[]⟩
  | _ => none

/-- Decode target of the Coinbase adapter:
`struct { Data struct { Amount string } }`. -/
def decodeCoinbase : Json → Option String
  | Json.obj fs =>
    match lookupKey fs "data" with
    | none => some ""
    | some (Json.obj gs) =>
      match lookupKey gs "amount" with
      | none => some ""
      | some w => decodeString w
    | some Json.null => some ""
    | some _ => none
  | Json.null => some ""
  | _ => none

/-- Outcome of one `http.Get`: a transport error, or a status code together
with the (already parsed) JSON body. -/
inductive HttpResult where
  | failure (msg : String) : HttpResult
  | success (status : Nat) (body : Json) : HttpResult

/-- The network oracle: what each URL answers during one request. -/
def Network : Type := String → HttpResult

/-- `fetchPrice` from both files: GET the URL, reject a non-200 status with
the formatted status-code message, then decode the body into the target. -/
def fetchPrice {α : Type} (net : Network) (url : String)
    (decode : Json → Option α) : Except String α :=
  match net url with
  | HttpResult.failure msg => Except.error msg
  | HttpResult.success status body =>
    if status ≠ 200 then
      Except.error ("error fetching price, status code: " ++ toString status)
    else
      match decode body with
      | none => Except.error "json: cannot unmarshal response body"
      | some a => Except.ok a

/-- The magnitude of `q`, scaled by 100 and rounded to the nearest integer
with ties to even — the rounding of Go's `fmt.Sprintf` verb `%.2f`.
Computed on the numerator and denominator directly so that it reduces. -/
def scaled2 (q : Rat) : Nat :=
  let n := q.num.natAbs * 100
  let d := q.den
  let f := n / d
  let r := n % d
  if 2 * r < d then f
  else if d < 2 * r then f + 1
  else if f % 2 = 0 then f else f + 1

/-- Two-digit zero-padded rendering of a number below 100. -/
def pad2 (c : Nat) : String :=
  (if c < 10 then "0" else "") ++ toString c

/-- Go's `fmt.Sprintf("%.2f", x)` on the exact-rational model of a float:
sign, integer part, and exactly two half-even-rounded decimal digits. -/
def goFormat2 (q : Rat) : String :=
  (if q.num < 0 then "-" else "") ++
    toString (scaled2 q / 100) ++ "." ++ pad2 (scaled2 q % 100)

/-- Result of one adapter invocation: the returned `(string, error)` pair of
the Go function, plus the URLs it actually requested. -/
structure FetchResult where
  price : String
  err : Option String
  requests : List String

/-- One entry of the aggregated report (`APIResponse` in both files). -/
structure APIResponse where
  source : String
  price : String

/-- CoinGecko identifiers for the supported symbols (identical in both files). -/
def coinGeckoSymbols : List (String × String) :=
  [("BTC", "bitcoin"), ("ETH", "ethereum"), ("SOL", "solana"),
   ("DOGE", "dogecoin"), ("SHIB", "shiba-inu")]

/-- Kraken pair identifiers for the supported symbols (identical in both files). -/
def krakenSymbols : List (String × String) :=
  [("BTC", "XXBTZUSD"), ("ETH", "XETHZUSD"), ("SOL", "SOLUSD"),
   ("DOGE", "XDGUSD"), ("SHIB", "SHIBUSD")]

/-- Go's `strings.ToUpper` on the ASCII strings this service manipulates,
written over the character list so that it reduces structurally. -/
def goToUpper (s : String) : String :=
  String.mk (s.data.map Char.toUpper)

/-- Binance ticker URL built directly from the uppercased symbol. -/
def binanceURL (symbol : String) : String :=
  "https://api.binance.com/api/v3/ticker/price?symbol=" ++ (goToUpper symbol) ++ "USDT"

/-- CoinGecko simple-price URL for a translated coin id. -/
def coinGeckoURL (id : String) : String :=
  "https://api.coingecko.com/api/v3/simple/price?ids=" ++ id ++ "&vs_currencies=usd"

/-- Kraken public ticker URL for a translated pair. -/
def krakenURL (pair : String) : String :=
  "https://api.kraken.com/0/public/Ticker?pair=" ++ pair

/-- Coinbase spot-price URL built directly from the uppercased symbol. -/
def coinbaseURL (symbol : String) : String :=
  "https://api.coinbase.com/v2/prices/" ++ (goToUpper symbol) ++ "-USD/spot"

namespace Main

/-- `getPriceFromBinance` of `main.go`: returns `result.Price` together with
the `fetchPrice` error; under the atomic decode model the struct keeps its
zero value `""` whenever `fetchPrice` fails. -/
def getPriceFromBinance (net : Network) (symbol : String) : FetchResult :=
  let url := binanceURL symbol
  let r := fetchPrice net url decodeBinance
  { price := match r with | Except.ok p => p | Except.error _ => ""
    err := match r with | Except.ok _ => none | Except.error e => some e
    requests := [url] }

/-- `getPriceFromCoinGecko` of `main.go`: translation-table lookup first,
then fetch, then `%.2f` formatting of the looked-up float. -/
def getPriceFromCoinGecko (net : Network) (symbol : String) : FetchResult :=
  match lookupKey coinGeckoSymbols (goToUpper symbol) with
  | none => { price := "", err := some ("unknown symbol for CoinGecko: " ++ symbol), requests := [] }
  | some coinGeckoSymbol =>
    let url := coinGeckoURL coinGeckoSymbol
    match fetchPrice net url decodeCoinGecko with
    | Except.error e => { price := "", err := some e, requests := [url] }
    | Except.ok result =>
      let price := goRead (goRead result coinGeckoSymbol []) "usd" 0
      { price := goFormat2 price, err := none, requests := [url] }

/-- `getPriceFromKraken` of `main.go`: translation-table lookup first, then
fetch, then the empty-quote-list check. -/
def getPriceFromKraken (net : Network) (symbol : String) : FetchResult :=
  match lookupKey krakenSymbols (goToUpper symbol) with
  | none => { price := "", err := some ("unknown symbol for Kraken: " ++ symbol), requests := [] }
  | some krakenPair =>
    let url := krakenURL krakenPair
    match fetchPrice net url decodeKraken with
    | Except.error e => { price := "", err := some e, requests := [url] }
    | Except.ok result =>
      match (goRead result.result krakenPair ⟨[]⟩).c with
      | [] => { price := "", err := some ("price not found for " ++ symbol), requests := [url] }
      | p :: _ => { price := p, err := none, requests := [url] }

/-- `getPriceFromCoinbase` of `main.go`: like Binance, returns
`result.Data.Amount` together with the `fetchPrice` error. -/
def getPriceFromCoinbase (net : Network) (symbol : String) : FetchResult :=
  let url := coinbaseURL symbol
  let r := fetchPrice net url decodeCoinbase
  { price := match r with | Except.ok p => p | Except.error _ => ""
    err := match r with | Except.ok _ => none | Except.error e => some e
    requests := [url] }

/-- The registered sources, in registration order, as in
`fetchPricesConcurrently` of `main.go`. -/
def sources : List (String × (Network → String → FetchResult)) :=
  [("Binance", getPriceFromBinance), ("CoinGecko", getPriceFromCoinGecko),
   ("Kraken", getPriceFromKraken), ("Coinbase", getPriceFromCoinbase)]

/-- The per-goroutine masking in `fetchPricesConcurrently`: a failed fetch
degrades the price to the placeholder string. -/
def maskErr (r : FetchResult) : String :=
  match r.err with
  | some _ => "Error fetching price"
  | none => r.price

/-- The `APIResponse` written into slot `i` by the goroutine of one source. -/
def slotEntry (net : Network) (symbol : String)
    (src : String × (Network → String → FetchResult)) : APIResponse :=
  { source := src.1 ++ " (" ++ (goToUpper symbol) ++ ")",
    price := maskErr (src.2 net symbol) }

/-- `fetchPricesConcurrently` of `main.go`: one pre-sized slot per source,
each goroutine writes its own slot, result in registration order. -/
def fetchPricesConcurrently (net : Network) (symbol : String) : List APIResponse :=
  sources.map (slotEntry net symbol)

/-- All URLs requested by one aggregation call. -/
def aggRequests (net : Network) (symbol : String) : List String :=
  (sources.map (fun src => (src.2 net symbol).requests)).flatten

/-- Execution of the goroutines of `fetchPricesConcurrently` under an
explicit completion order: starting from the zero-initialized slot list,
the goroutine finishing step writes slot `i`; indexes without a registered
source have no goroutine and write nothing. -/
def runSchedule (net : Network) (symbol : String) (order : List Nat) : List APIResponse :=
  order.foldl
    (fun acc i =>
      match sources[i]? with
      | some src => acc.set i (slotEntry net symbol src)
      | none => acc)
    (List.replicate sources.length { source := "", price := "" })

end Main

namespace Api

/-- `getPriceFromBinance` of `api/index.go`: early-returns `""` on a fetch
error, the decoded price otherwise. -/
def getPriceFromBinance (net : Network) (symbol : String) : FetchResult :=
  let url := binanceURL symbol
  match fetchPrice net url decodeBinance with
  | Except.error e => { price := "", err := some e, requests := [url] }
  | Except.ok result => { price := result, err := none, requests := [url] }

/-- `getPriceFromCoinGecko` of `api/index.go` (same body as in `main.go`). -/
def getPriceFromCoinGecko (net : Network) (symbol : String) : FetchResult :=
  match lookupKey coinGeckoSymbols (goToUpper symbol) with
  | none => { price := "", err := some ("unknown symbol for CoinGecko: " ++ symbol), requests := [] }
  | some coinGeckoSymbol =>
    let url := coinGeckoURL coinGeckoSymbol
    match fetchPrice net url decodeCoinGecko with
    | Except.error e => { price := "", err := some e, requests := [url] }
    | Except.ok result =>
      let price := goRead (goRead result coinGeckoSymbol []) "usd" 0
      { price := goFormat2 price, err := none, requests := [url] }

/-- `getPriceFromKraken` of `api/index.go` (same body as in `main.go`). -/
def getPriceFromKraken (net : Network) (symbol : String) : FetchResult :=
  match lookupKey krakenSymbols (goToUpper symbol) with
  | none => { price := "", err := some ("unknown symbol for Kraken: " ++ symbol), requests := [] }
  | some krakenPair =>
    let url := krakenURL krakenPair
    match fetchPrice net url decodeKraken with
    | Except.error e => { price := "", err := some e, requests := [url] }
    | Except.ok result =>
      match (goRead result.result krakenPair ⟨[]⟩).c with
      | [] => { price := "", err := some ("price not found for " ++ symbol), requests := [url] }
      | p :: _ => { price := p, err := none, requests := [url] }

/-- `getPriceFromCoinbase` of `api/index.go`: early-returns `""` on a fetch
error, `result.Data.Amount` otherwise. -/
def getPriceFromCoinbase (net : Network) (symbol : String) : FetchResult :=
  let url := coinbaseURL symbol
  match fetchPrice net url decodeCoinbase with
  | Except.error e => { price := "", err := some e, requests := [url] }
  | Except.ok result => { price := result, err := none, requests := [url] }

/-- The registered sources of `api/index.go`, in registration order. -/
def sources : List (String × (Network → String → FetchResult)) :=
  [("Binance", getPriceFromBinance), ("CoinGecko", getPriceFromCoinGecko),
   ("Kraken", getPriceFromKraken), ("Coinbase", getPriceFromCoinbase)]

/-- The per-goroutine masking of `api/index.go` (identical to `main.go`). -/
def maskErr (r : FetchResult) : String :=
  match r.err with
  | some _ => "Error fetching price"
  | none => r.price

/-- The `APIResponse` written into one slot by `api/index.go`. -/
def slotEntry (net : Network) (symbol : String)
    (src : String × (Network → String → FetchResult)) : APIResponse :=
  { source := src.1 ++ " (" ++ (goToUpper symbol) ++ ")",
    price := maskErr (src.2 net symbol) }

/-- `fetchPricesConcurrently` of `api/index.go`. -/
def fetchPricesConcurrently (net : Network) (symbol : String) : List APIResponse :=
  sources.map (slotEntry net symbol)

/-- All URLs requested by one aggregation call of `api/index.go`. -/
def aggRequests (net : Network) (symbol : String) : List String :=
  (sources.map (fun src => (src.2 net symbol).requests)).flatten

end Api

/-- The JSON envelope written by both endpoints:
`{"prices": [{"source": ..., "price": ...}, ...]}`. -/
def pricesEnvelope (rs : List APIResponse) : Json :=
  Json.obj [("prices", Json.arr (rs.map (fun r =>
    Json.obj [("source", Json.str r.source), ("price", Json.str r.price)])))]

/-- What an endpoint invocation produces: the HTTP status, the JSON body when
one is written, and every upstream URL requested while serving it. -/
structure HttpOut where
  status : Nat
  body : Option Json
  requests : List String

/-- The gin route body of `main.go` for `GET /price/:symbol`: always replies
`200 OK` with the envelope (the routing layer itself never dispatches an
empty `:symbol` segment here). -/
def Main.priceRoute (net : Network) (symbol : String) : HttpOut :=
  { status := 200,
    body := some (pricesEnvelope (Main.fetchPricesConcurrently net symbol)),
    requests := Main.aggRequests net symbol }

/-- `strings.TrimPrefix(r.URL.Path, "/api/")`: drop the `/api/` route marker
when present, written over character lists so that it reduces. -/
def trimApiSymbol (path : String) : String :=
  if ("/api/").data.isPrefixOf path.data then String.mk (path.data.drop ("/api/").length)
  else path

/-- `Handler` of `api/index.go`: strips the `/api/` route marker from the
path, replies `400 Bad Request` on an empty symbol without invoking the
aggregator, and otherwise `200 OK` with the envelope. -/
def Api.Handler (net : Network) (path : String) : HttpOut :=
  let symbol := trimApiSymbol path
  if symbol = "" then { status := 400, body := none, requests := [] }
  else
    { status := 200,
      body := some (pricesEnvelope (Api.fetchPricesConcurrently net symbol)),
      requests := Api.aggRequests net symbol }

/-- A network where every URL fails at the transport level. -/
def failNet : Network := fun _ => HttpResult.failure "connection refused"

/-- A healthy network for the symbol BTC: every exchange answers 200 with a
well-formed body carrying a price. -/
def goodNetBTC : Network := fun url =>
  if url == binanceURL "BTC" then
    HttpResult.success 200 (Json.obj [("price", Json.str "97000.5")])
  else if url == coinGeckoURL "bitcoin" then
    HttpResult.success 200 (Json.obj [("bitcoin", Json.obj [("usd", Json.num 97001)])])
  else if url == krakenURL "XXBTZUSD" then
    HttpResult.success 200 (Json.obj [("result", Json.obj
      [("XXBTZUSD", Json.obj [("c", Json.arr [Json.str "97002.1", Json.str "3"])])])])
  else if url == coinbaseURL "BTC" then
    HttpResult.success 200 (Json.obj [("data", Json.obj [("amount", Json.str "97003.2")])])
  else HttpResult.failure "no route"

/-- Like `goodNetBTC`, except Binance answers 200 with a well-formed empty
object: its `price` field is structurally absent. -/
def emptyBinanceNet : Network := fun url =>
  if url == binanceURL "BTC" then HttpResult.success 200 (Json.obj [])
  else goodNetBTC url

/-- A network where Kraken answers 200 with a well-formed body whose quote
list `c` is empty, Binance answers 200 with an empty object, and Coinbase
answers 200 with an empty `data` object. -/
def absentFieldNet : Network := fun url =>
  if url == binanceURL "BTC" then HttpResult.success 200 (Json.obj [])
  else if url == krakenURL "XXBTZUSD" then
    HttpResult.success 200 (Json.obj [("result", Json.obj
      [("XXBTZUSD", Json.obj [("c", Json.arr [])])])])
  else if url == coinbaseURL "BTC" then
    HttpResult.success 200 (Json.obj [("data", Json.obj [])])
  else goodNetBTC url

/-- A network where every URL answers 404 with a structured error body. -/
def err404Net : Network := fun _ =>
  HttpResult.success 404 (Json.obj
    [("code", Json.num 42), ("msg", Json.str "Instrument not found")])

/-- A network where CoinGecko answers 200 with a well-formed object that does
not contain the requested coin id (`bitcoin`), and the other exchanges
answer as in `goodNetBTC`. -/
def missingCoinIdNet : Network := fun url =>
  if url == coinGeckoURL "bitcoin" then
    HttpResult.success 200 (Json.obj [("ethereum", Json.obj [("usd", Json.num 5)])])
  else goodNetBTC url

/-- Length is invariant under the slot-writing fold of `Main.runSchedule`. -/
theorem runSchedule_go_length (net : Network) (symbol : String) :
    ∀ (order : List Nat) (init : List APIResponse),
    (order.foldl (fun acc i =>
      match Main.sources[i]? with
      | some src => acc.set i (Main.slotEntry net symbol src)
      | none => acc) init).length = init.length := by
  intro order
  induction order with
  | nil => intro init; rfl
  | cons i rest ih =>
    intro init
    rw [List.foldl_cons, ih]
    cases Main.sources[i]? <;> simp

/-- Slots outside the completion order are untouched by the fold. -/
theorem runSchedule_go_not_mem (net : Network) (symbol : String) :
    ∀ (order : List Nat) (init : List APIResponse) (j : Nat), j ∉ order →
    (order.foldl (fun acc i =>
      match Main.sources[i]? with
      | some src => acc.set i (Main.slotEntry net symbol src)
      | none => acc) init)[j]? = init[j]? := by
  intro order
  induction order with
  | nil => intro init j _; rfl
  | cons i rest ih =>
    intro init j hj
    have hji : j ≠ i := fun h => hj (h ▸ List.mem_cons_self i rest)
    have hjr : j ∉ rest := fun h => hj (List.mem_cons_of_mem i h)
    rw [List.foldl_cons, ih _ j hjr]
    cases Main.sources[i]? with
    | none => rfl
    | some src => exact List.getElem?_set_ne (fun h => hji h.symm)

/-- A slot whose goroutine completes somewhere in the order holds its
source's entry afterwards, independently of where in the order it ran. -/
theorem runSchedule_go_mem (net : Network) (symbol : String) :
    ∀ (order : List Nat) (init : List APIResponse) (j : Nat)
    (src : String × (Network → String → FetchResult)),
    Main.sources[j]? = some src → j ∈ order → j < init.length →
    (order.foldl (fun acc i =>
      match Main.sources[i]? with
      | some src => acc.set i (Main.slotEntry net symbol src)
      | none => acc) init)[j]? = some (Main.slotEntry net symbol src) := by
  intro order
  induction order with
  | nil => intro init j src _ hmem _; exact absurd hmem (List.not_mem_nil j)
  | cons i rest ih =>
    intro init j src hsrc hmem hlt
    rw [List.foldl_cons]
    by_cases hjr : j ∈ rest
    · apply ih _ j src hsrc hjr
      cases Main.sources[i]? <;> simp [hlt]
    · have hji : j = i := by
        rcases List.mem_cons.mp hmem with h | h
        · exact h
        · exact absurd h hjr
      subst hji
      rw [runSchedule_go_not_mem net symbol rest _ j hjr, hsrc]
      exact List.getElem?_set_self hlt

/-- C1: for every input symbol and every completion order of the adapter
goroutines, the aggregator returns a report with exactly 4 entries, one per
registered adapter, labelled in the fixed registration order
[Binance, CoinGecko, Kraken, Coinbase]; no entry is dropped whatever the
network makes the adapters do. -/
theorem c1_fixed_order_report (net : Network) (s : String) (order : List Nat)
    (h : ∀ i, i < Main.sources.length → i ∈ order) :
    Main.runSchedule net s order = Main.fetchPricesConcurrently net s ∧
    (Main.fetchPricesConcurrently net s).length = 4 ∧
    (Main.fetchPricesConcurrently net s).map (fun r => r.source) =
      ["Binance (" ++ (goToUpper s) ++ ")", "CoinGecko (" ++ (goToUpper s) ++ ")",
       "Kraken (" ++ (goToUpper s) ++ ")", "Coinbase (" ++ (goToUpper s) ++ ")"] := by
  refine ⟨?_, rfl, rfl⟩
  apply List.ext_getElem?
  intro n
  by_cases hn : n < Main.sources.length
  · have hsrc : Main.sources[n]? = some (Main.sources.get ⟨n, hn⟩) := by
      simp
    rw [Main.runSchedule, runSchedule_go_mem net s order _ n _ hsrc (h n hn)
      (by simpa using hn)]
    rw [Main.fetchPricesConcurrently, List.getElem?_map, hsrc]
    rfl
  · have hlen : (Main.runSchedule net s order).length ≤ n := by
      rw [Main.runSchedule, runSchedule_go_length]
      simpa using Nat.le_of_not_lt hn
    have hlen2 : (Main.fetchPricesConcurrently net s).length ≤ n := by
      rw [Main.fetchPricesConcurrently, List.length_map]
      exact Nat.le_of_not_lt hn
    rw [List.getElem?_eq_none hlen, List.getElem?_eq_none hlen2]

/-- Witness for C1: a reversed completion order on a failing network still
yields the fixed-order 4-entry report. -/
theorem c1_fixed_order_report_witness :
    (∀ i, i < Main.sources.length → i ∈ [3, 2, 1, 0]) ∧
    Main.runSchedule failNet "BTC" [3, 2, 1, 0] =
      Main.fetchPricesConcurrently failNet "BTC" :=
  ⟨by decide, (c1_fixed_order_report failNet "BTC" [3, 2, 1, 0] (by decide)).1⟩

/-- C2 counterexample: on a network where Binance answers 200 with a
well-formed empty object and the other three exchanges answer healthily,
all four adapters succeed (no error), yet the Binance entry's price is the
empty string — not a non-empty string as the claim requires. -/
theorem c2_counterexample :
    (Main.getPriceFromBinance emptyBinanceNet "BTC").err = none ∧
    (Main.getPriceFromCoinGecko emptyBinanceNet "BTC").err = none ∧
    (Main.getPriceFromKraken emptyBinanceNet "BTC").err = none ∧
    (Main.getPriceFromCoinbase emptyBinanceNet "BTC").err = none ∧
    (Main.fetchPricesConcurrently emptyBinanceNet "BTC").map (fun r => r.price) =
      ["", "97001.00", "97002.1", "97003.2"] := by
  refine ⟨by decide, by decide, by decide, by decide, ?_⟩
  decide

/-- C2 amended: an entry's price is the error placeholder whenever its
adapter returned an error, and otherwise is exactly the string the adapter
returned (which may be empty, since adapters can succeed with the zero
value); each entry is a function of its own adapter's outcome alone, so one
adapter's failure leaves the other entries' values and order unaffected. -/
theorem c2_amended_error_masking (net net2 : Network) (s : String) (i : Nat)
    (h : i < Main.sources.length) :
    (Main.slotEntry net s Main.sources[i]).price =
      (if (Main.sources[i].2 net s).err.isSome then "Error fetching price"
       else (Main.sources[i].2 net s).price) ∧
    (Main.fetchPricesConcurrently net s)[i]? =
      some (Main.slotEntry net s Main.sources[i]) ∧
    (Main.sources[i].2 net s = Main.sources[i].2 net2 s →
      Main.slotEntry net s Main.sources[i] = Main.slotEntry net2 s Main.sources[i]) := by
  refine ⟨?_, ?_, ?_⟩
  · cases herr : (Main.sources[i].2 net s).err <;>
      simp [Main.slotEntry, Main.maskErr, herr]
  · rw [Main.fetchPricesConcurrently, List.getElem?_map, List.getElem?_eq_getElem h]
    rfl
  · intro heq
    simp [Main.slotEntry, Main.maskErr, heq]

/-- Witness for C2 amended, at the empty-body Binance network: the first
slot of the report is exactly the Binance entry. -/
theorem c2_amended_error_masking_witness :
    0 < Main.sources.length ∧
    (Main.fetchPricesConcurrently emptyBinanceNet "BTC")[0]? =
      some (Main.slotEntry emptyBinanceNet "BTC" Main.sources[0]) :=
  ⟨Nat.succ_pos 3,
   (c2_amended_error_masking emptyBinanceNet emptyBinanceNet "BTC" 0
     (Nat.succ_pos 3)).2.1⟩

/-- C3: for an empty symbol the endpoint replies 400 Bad Request without
invoking the aggregator (no body, no upstream request); for a non-empty
symbol it always replies 200 OK with the report wrapped in the
`{"prices": [...]}` envelope; the status does not depend on the network, so
it is never derived from individual adapter failures; and the gin route of
`main.go` likewise always replies 200. -/
theorem c3_endpoint_status (net net2 : Network) (path sym : String)
    (hsym : sym = trimApiSymbol path) :
    (sym = "" → Api.Handler net path = { status := 400, body := none, requests := [] }) ∧
    (sym ≠ "" → Api.Handler net path =
      { status := 200,
        body := some (pricesEnvelope (Api.fetchPricesConcurrently net sym)),
        requests := Api.aggRequests net sym }) ∧
    (Api.Handler net path).status = (Api.Handler net2 path).status ∧
    (Main.priceRoute net sym).status = 200 := by
  subst hsym
  refine ⟨?_, ?_, ?_, rfl⟩
  · intro h0
    simp [Api.Handler, h0]
  · intro h0
    simp [Api.Handler, h0]
  · by_cases h0 : trimApiSymbol path = "" <;> simp [Api.Handler, h0]

/-- Witness for C3: the 400 branch at path `/api/` and the 200 branch at
path `/api/BTC`, on a network where every adapter fails. -/
theorem c3_endpoint_status_witness :
    Api.Handler failNet "/api/" = { status := 400, body := none, requests := [] } ∧
    Api.Handler failNet "/api/BTC" =
      { status := 200,
        body := some (pricesEnvelope (Api.fetchPricesConcurrently failNet "BTC")),
        requests := Api.aggRequests failNet "BTC" } :=
  ⟨(c3_endpoint_status failNet failNet "/api/" "" rfl).1 rfl,
   (c3_endpoint_status failNet failNet "/api/BTC" "BTC" rfl).2.1 (by decide)⟩

/-- C4: a symbol absent from the CoinGecko (resp. Kraken) translation table
makes that adapter fail with the unknown-symbol error before any network
call (its request list is empty), whereas the Binance and Coinbase
adapters always issue exactly their one request, never fail locally, and
their error outcome is exactly the remote `fetchPrice` outcome. -/
theorem c4_unknown_symbol (net : Network) (s : String)
    (hcg : lookupKey coinGeckoSymbols (goToUpper s) = none)
    (hkr : lookupKey krakenSymbols (goToUpper s) = none) :
    Main.getPriceFromCoinGecko net s =
      { price := "", err := some ("unknown symbol for CoinGecko: " ++ s), requests := [] } ∧
    Main.getPriceFromKraken net s =
      { price := "", err := some ("unknown symbol for Kraken: " ++ s), requests := [] } ∧
    (Main.getPriceFromBinance net s).requests = [binanceURL s] ∧
    (Main.getPriceFromCoinbase net s).requests = [coinbaseURL s] ∧
    (Main.getPriceFromBinance net s).err =
      (match fetchPrice net (binanceURL s) decodeBinance with
       | Except.ok _ => none
       | Except.error e => some e) ∧
    (Main.getPriceFromCoinbase net s).err =
      (match fetchPrice net (coinbaseURL s) decodeCoinbase with
       | Except.ok _ => none
       | Except.error e => some e) := by
  refine ⟨?_, ?_, rfl, rfl, rfl, rfl⟩
  · simp [Main.getPriceFromCoinGecko, hcg]
  · simp [Main.getPriceFromKraken, hkr]

/-- Witness for C4 at the unknown symbol FOO: CoinGecko and Kraken fail
locally with no request; Binance and Coinbase each issue their request and
surface the remote outcome. -/
theorem c4_unknown_symbol_witness :
    lookupKey coinGeckoSymbols (goToUpper "FOO") = none ∧
    lookupKey krakenSymbols (goToUpper "FOO") = none ∧
    Main.getPriceFromCoinGecko goodNetBTC "FOO" =
      { price := "", err := some ("unknown symbol for CoinGecko: " ++ "FOO"), requests := [] } ∧
    (Main.getPriceFromBinance goodNetBTC "FOO").requests = [binanceURL "FOO"] :=
  ⟨rfl, rfl,
   (c4_unknown_symbol goodNetBTC "FOO" rfl rfl).1,
   (c4_unknown_symbol goodNetBTC "FOO" rfl rfl).2.2.1⟩

/-- C5 counterexample: Binance answers 200 with a well-formed empty object,
so its `price` field is structurally absent, yet the Binance adapter does
not fail — it returns the zero-value empty string with no error. -/
theorem c5_counterexample :
    emptyBinanceNet (binanceURL "BTC") = HttpResult.success 200 (Json.obj []) ∧
    Main.getPriceFromBinance emptyBinanceNet "BTC" =
      { price := "", err := none, requests := [binanceURL "BTC"] } :=
  ⟨rfl, rfl⟩

/-- C5 amended: only the Kraken adapter guards against a structurally
absent price field — on a success status and well-formed body whose quote
list `c` is empty (or whose pair entry is absent), it fails with the
price-not-found error; the Binance and Coinbase adapters instead return
the zero-value empty string with no error when their field is absent. -/
theorem c5_amended_price_not_found (net : Network) (s pair : String)
    (j : Json) (b : KrakenBody)
    (hp : lookupKey krakenSymbols (goToUpper s) = some pair)
    (hnet : net (krakenURL pair) = HttpResult.success 200 j)
    (hdec : decodeKraken j = some b)
    (hc : (goRead b.result pair ⟨[]⟩).c = []) :
    Main.getPriceFromKraken net s =
      { price := "", err := some ("price not found for " ++ s),
        requests := [krakenURL pair] } ∧
    (∀ fs, net (binanceURL s) = HttpResult.success 200 (Json.obj fs) →
      lookupKey fs "price" = none →
      Main.getPriceFromBinance net s =
        { price := "", err := none, requests := [binanceURL s] }) ∧
    (∀ fs, net (coinbaseURL s) = HttpResult.success 200 (Json.obj fs) →
      lookupKey fs "data" = none →
      Main.getPriceFromCoinbase net s =
        { price := "", err := none, requests := [coinbaseURL s] }) := by
  refine ⟨?_, ?_, ?_⟩
  · simp [Main.getPriceFromKraken, hp, fetchPrice, hnet, hdec, hc]
  · intro fs hnet2 hfield
    simp [Main.getPriceFromBinance, fetchPrice, hnet2, decodeBinance, hfield]
  · intro fs hnet2 hfield
    simp [Main.getPriceFromCoinbase, fetchPrice, hnet2, decodeCoinbase, hfield]

/-- Witness for C5 amended: on a network answering 200 with an empty Kraken
quote list and an empty Binance object, Kraken errs with price-not-found
while Binance succeeds with the empty string. -/
theorem c5_amended_price_not_found_witness :
    Main.getPriceFromKraken absentFieldNet "BTC" =
      { price := "", err := some ("price not found for " ++ "BTC"),
        requests := [krakenURL "XXBTZUSD"] } ∧
    Main.getPriceFromBinance absentFieldNet "BTC" =
      { price := "", err := none, requests := [binanceURL "BTC"] } :=
  ⟨(c5_amended_price_not_found absentFieldNet "BTC" "XXBTZUSD"
      (Json.obj [("result", Json.obj [("XXBTZUSD", Json.obj [("c", Json.arr [])])])])
      ⟨[("XXBTZUSD", ⟨[]⟩)]⟩ rfl rfl rfl rfl).1,
   (c5_amended_price_not_found absentFieldNet "BTC" "XXBTZUSD"
      (Json.obj [("result", Json.obj [("XXBTZUSD", Json.obj [("c", Json.arr [])])])])
      ⟨[("XXBTZUSD", ⟨[]⟩)]⟩ rfl rfl rfl rfl).2.1 [] rfl rfl⟩

/-- C6 counterexample: the exchange answers 404 with a structured error body
carrying a code and a message, yet the fetch error is exactly the raw
status-code text — the body's code and message are not decoded or surfaced
(the message string does not occur in the error). -/
theorem c6_counterexample :
    err404Net "u" = HttpResult.success 404 (Json.obj
      [("code", Json.num 42), ("msg", Json.str "Instrument not found")]) ∧
    fetchPrice err404Net "u" decodeBinance =
      Except.error "error fetching price, status code: 404" ∧
    ("error fetching price, status code: 404").data.tails.all
      (fun t => !("Instrument not found").data.isPrefixOf t) = true :=
  ⟨rfl, rfl, by decide⟩

/-- C6 amended: on any non-success status, `fetchPrice` — and therefore
every adapter — fails with an error carrying exactly the raw status code,
without decoding or surfacing the response body. -/
theorem c6_amended_raw_status (net : Network) (url : String) (status : Nat)
    (body : Json) (hnet : net url = HttpResult.success status body)
    (hstat : status ≠ 200) :
    (∀ {α : Type} (decode : Json → Option α),
      fetchPrice net url decode =
        Except.error ("error fetching price, status code: " ++ toString status)) ∧
    (∀ s, net (binanceURL s) = HttpResult.success status body →
      Main.getPriceFromBinance net s =
        { price := "",
          err := some ("error fetching price, status code: " ++ toString status),
          requests := [binanceURL s] }) := by
  constructor
  · intro α decode
    simp [fetchPrice, hnet, hstat]
  · intro s hnet2
    simp [Main.getPriceFromBinance, fetchPrice, hnet2, hstat]

/-- Witness for C6 amended, at the 404-answering network. -/
theorem c6_amended_raw_status_witness :
    fetchPrice err404Net "u" decodeBinance =
      Except.error ("error fetching price, status code: " ++ toString 404) ∧
    Main.getPriceFromBinance err404Net "BTC" =
      { price := "",
        err := some ("error fetching price, status code: " ++ toString 404),
        requests := [binanceURL "BTC"] } :=
  ⟨(c6_amended_raw_status err404Net "u" 404
      (Json.obj [("code", Json.num 42), ("msg", Json.str "Instrument not found")])
      rfl (by decide)).1 decodeBinance,
   (c6_amended_raw_status err404Net (binanceURL "BTC") 404
      (Json.obj [("code", Json.num 42), ("msg", Json.str "Instrument not found")])
      rfl (by decide)).2 "BTC" rfl⟩

/-- The Binance adapter depends on the symbol only through its uppercasing. -/
theorem binance_upper_congr (net : Network) (s t : String)
    (h : goToUpper s = goToUpper t) :
    Main.getPriceFromBinance net s = Main.getPriceFromBinance net t := by
  simp [Main.getPriceFromBinance, binanceURL, h]

/-- The Coinbase adapter depends on the symbol only through its uppercasing. -/
theorem coinbase_upper_congr (net : Network) (s t : String)
    (h : goToUpper s = goToUpper t) :
    Main.getPriceFromCoinbase net s = Main.getPriceFromCoinbase net t := by
  simp [Main.getPriceFromCoinbase, coinbaseURL, h]

/-- The CoinGecko adapter's masked price and request list depend on the
symbol only through its uppercasing (the raw symbol appears only inside
the error message, which the aggregator masks). -/
theorem coinGecko_upper_congr (net : Network) (s t : String)
    (h : goToUpper s = goToUpper t) :
    Main.maskErr (Main.getPriceFromCoinGecko net s) =
      Main.maskErr (Main.getPriceFromCoinGecko net t) ∧
    (Main.getPriceFromCoinGecko net s).requests =
      (Main.getPriceFromCoinGecko net t).requests := by
  cases hl : lookupKey coinGeckoSymbols (goToUpper t) with
  | none =>
    constructor <;> simp [Main.getPriceFromCoinGecko, Main.maskErr, h, hl]
  | some id =>
    cases hf : fetchPrice net (coinGeckoURL id) decodeCoinGecko with
    | error e =>
      constructor <;> simp [Main.getPriceFromCoinGecko, Main.maskErr, h, hl, hf]
    | ok m =>
      constructor <;> simp [Main.getPriceFromCoinGecko, Main.maskErr, h, hl, hf]

/-- The Kraken adapter's masked price and request list depend on the symbol
only through its uppercasing. -/
theorem kraken_upper_congr (net : Network) (s t : String)
    (h : goToUpper s = goToUpper t) :
    Main.maskErr (Main.getPriceFromKraken net s) =
      Main.maskErr (Main.getPriceFromKraken net t) ∧
    (Main.getPriceFromKraken net s).requests =
      (Main.getPriceFromKraken net t).requests := by
  cases hl : lookupKey krakenSymbols (goToUpper t) with
  | none =>
    constructor <;> simp [Main.getPriceFromKraken, Main.maskErr, h, hl]
  | some pair =>
    cases hf : fetchPrice net (krakenURL pair) decodeKraken with
    | error e =>
      constructor <;> simp [Main.getPriceFromKraken, Main.maskErr, h, hl, hf]
    | ok b =>
      cases hc : (goRead b.result pair ⟨[]⟩).c with
      | nil =>
        constructor <;> simp [Main.getPriceFromKraken, Main.maskErr, h, hl, hf, hc]
      | cons p rest =>
        constructor <;> simp [Main.getPriceFromKraken, Main.maskErr, h, hl, hf, hc]

/-- C7: aggregation is case-insensitive in the symbol — two symbols with
the same uppercasing yield identical reports (labels carrying the
uppercased symbol) and identical adapter dispatch (the same URLs are
requested), because the symbol is uppercased before every use that can
reach the report. -/
theorem c7_case_insensitive (net : Network) (s t : String)
    (h : goToUpper s = goToUpper t) :
    Main.fetchPricesConcurrently net s = Main.fetchPricesConcurrently net t ∧
    Main.aggRequests net s = Main.aggRequests net t ∧
    (Main.fetchPricesConcurrently net s).map (fun r => r.source) =
      ["Binance (" ++ (goToUpper s) ++ ")", "CoinGecko (" ++ (goToUpper s) ++ ")",
       "Kraken (" ++ (goToUpper s) ++ ")", "Coinbase (" ++ (goToUpper s) ++ ")"] := by
  have hb := binance_upper_congr net s t h
  have hcb := coinbase_upper_congr net s t h
  have hcg := coinGecko_upper_congr net s t h
  have hk := kraken_upper_congr net s t h
  refine ⟨?_, ?_, rfl⟩
  · simp [Main.fetchPricesConcurrently, Main.sources, Main.slotEntry, h,
      hb, hcb, hcg.1, hk.1]
  · simp [Main.aggRequests, Main.sources, hb, hcb, hcg.2, hk.2]

/-- Witness for C7: requesting btc and BTC on the healthy network yields
identical reports. -/
theorem c7_case_insensitive_witness :
    goToUpper "btc" = goToUpper "BTC" ∧
    Main.fetchPricesConcurrently goodNetBTC "btc" =
      Main.fetchPricesConcurrently goodNetBTC "BTC" :=
  ⟨rfl, (c7_case_insensitive goodNetBTC "btc" "BTC" rfl).1⟩

/-- The fractional rendering of `pad2` below 100 always has two digits. -/
theorem pad2_length_two : ∀ c, c < 100 → (pad2 c).length = 2 := by decide

/-- C8: on success, Binance, Kraken and Coinbase return the price string
extracted from the exchange's body verbatim, with no renormalization;
CoinGecko alone formats its float result, and that format always carries
exactly two decimal digits after the dot. -/
theorem c8_native_price_strings (net : Network) (s : String) :
    (∀ p, fetchPrice net (binanceURL s) decodeBinance = Except.ok p →
      Main.getPriceFromBinance net s =
        { price := p, err := none, requests := [binanceURL s] }) ∧
    (∀ p, fetchPrice net (coinbaseURL s) decodeCoinbase = Except.ok p →
      Main.getPriceFromCoinbase net s =
        { price := p, err := none, requests := [coinbaseURL s] }) ∧
    (∀ pair b p rest, lookupKey krakenSymbols (goToUpper s) = some pair →
      fetchPrice net (krakenURL pair) decodeKraken = Except.ok b →
      (goRead b.result pair ⟨[]⟩).c = p :: rest →
      Main.getPriceFromKraken net s =
        { price := p, err := none, requests := [krakenURL pair] }) ∧
    (∀ id m, lookupKey coinGeckoSymbols (goToUpper s) = some id →
      fetchPrice net (coinGeckoURL id) decodeCoinGecko = Except.ok m →
      Main.getPriceFromCoinGecko net s =
        { price := goFormat2 (goRead (goRead m id []) "usd" 0), err := none,
          requests := [coinGeckoURL id] }) ∧
    (∀ q : Rat, ∃ pre : String,
      goFormat2 q = pre ++ "." ++ pad2 (scaled2 q % 100) ∧
      (pad2 (scaled2 q % 100)).length = 2) := by
  refine ⟨?_, ?_, ?_, ?_, ?_⟩
  · intro p hf
    simp [Main.getPriceFromBinance, hf]
  · intro p hf
    simp [Main.getPriceFromCoinbase, hf]
  · intro pair b p rest hp hf hc
    simp [Main.getPriceFromKraken, hp, hf, hc]
  · intro id m hid hf
    simp [Main.getPriceFromCoinGecko, hid, hf]
  · intro q
    refine ⟨(if q.num < 0 then "-" else "") ++ toString (scaled2 q / 100), ?_, ?_⟩
    · rfl
    · exact pad2_length_two _ (Nat.mod_lt _ (by decide))

/-- Witness for C8 on the healthy network: each adapter's successful entry
is exactly the string its exchange provided, and CoinGecko's is the
two-decimal formatting of its float. -/
theorem c8_native_price_strings_witness :
    fetchPrice goodNetBTC (binanceURL "BTC") decodeBinance = Except.ok "97000.5" ∧
    Main.getPriceFromBinance goodNetBTC "BTC" =
      { price := "97000.5", err := none, requests := [binanceURL "BTC"] } ∧
    Main.getPriceFromKraken goodNetBTC "BTC" =
      { price := "97002.1", err := none, requests := [krakenURL "XXBTZUSD"] } ∧
    Main.getPriceFromCoinGecko goodNetBTC "BTC" =
      { price := goFormat2 (goRead (goRead [("bitcoin", [("usd", (97001 : Rat))])]
          "bitcoin" []) "usd" 0), err := none, requests := [coinGeckoURL "bitcoin"] } :=
  ⟨rfl,
   (c8_native_price_strings goodNetBTC "BTC").1 "97000.5" rfl,
   (c8_native_price_strings goodNetBTC "BTC").2.2.1 "XXBTZUSD" ⟨[("XXBTZUSD", ⟨["97002.1", "3"]⟩)]⟩
     "97002.1" ["3"] rfl rfl rfl,
   (c8_native_price_strings goodNetBTC "BTC").2.2.2.1 "bitcoin"
     [("bitcoin", [("usd", (97001 : Rat))])] rfl rfl⟩

/-- The two Binance adapters agree despite their textual difference:
`main.go` returns the zero-value struct field alongside the error where
`api/index.go` early-returns the empty string. -/
theorem binance_main_eq_api (net : Network) (s : String) :
    Main.getPriceFromBinance net s = Api.getPriceFromBinance net s := by
  cases hf : fetchPrice net (binanceURL s) decodeBinance <;>
    simp [Main.getPriceFromBinance, Api.getPriceFromBinance, hf]

/-- The two Coinbase adapters agree, for the same reason as Binance. -/
theorem coinbase_main_eq_api (net : Network) (s : String) :
    Main.getPriceFromCoinbase net s = Api.getPriceFromCoinbase net s := by
  cases hf : fetchPrice net (coinbaseURL s) decodeCoinbase <;>
    simp [Main.getPriceFromCoinbase, Api.getPriceFromCoinbase, hf]

/-- C9: the two deployments are the same logic — for every network and
symbol, the aggregation of `main.go` and the aggregation of `api/index.go`
produce identical reports (same labels, prices and order), identical
request sets, and in fact identical adapter results. -/
theorem c9_deployments_equivalent (net : Network) (s : String) :
    Main.fetchPricesConcurrently net s = Api.fetchPricesConcurrently net s ∧
    Main.aggRequests net s = Api.aggRequests net s ∧
    Main.getPriceFromBinance net s = Api.getPriceFromBinance net s ∧
    Main.getPriceFromCoinGecko net s = Api.getPriceFromCoinGecko net s ∧
    Main.getPriceFromKraken net s = Api.getPriceFromKraken net s ∧
    Main.getPriceFromCoinbase net s = Api.getPriceFromCoinbase net s := by
  have hb := binance_main_eq_api net s
  have hcb := coinbase_main_eq_api net s
  refine ⟨?_, ?_, hb, rfl, rfl, hcb⟩
  · simp [Main.fetchPricesConcurrently, Api.fetchPricesConcurrently,
      Main.sources, Api.sources, Main.slotEntry, Api.slotEntry,
      Main.maskErr, Api.maskErr, hb, hcb]
    exact ⟨rfl, rfl⟩
  · simp [Main.aggRequests, Api.aggRequests, Main.sources, Api.sources, hb, hcb]
    rfl

/-- C10: when the symbol is in the CoinGecko table but the 200-status
well-formed response object lacks the expected coin id (or its `usd`
sub-key), the Go zero value `0.0` is formatted, so the adapter succeeds
with the price string `0.00` and the report shows it as a healthy entry. -/
theorem c10_coingecko_zero_default (net : Network) (s id : String) (j : Json)
    (m : List (String × List (String × Rat)))
    (hid : lookupKey coinGeckoSymbols (goToUpper s) = some id)
    (hnet : net (coinGeckoURL id) = HttpResult.success 200 j)
    (hdec : decodeCoinGecko j = some m)
    (habs : lookupKey m id = none ∨ lookupKey (goRead m id []) "usd" = none) :
    Main.getPriceFromCoinGecko net s =
      { price := "0.00", err := none, requests := [coinGeckoURL id] } ∧
    (Main.fetchPricesConcurrently net s)[1]? =
      some { source := "CoinGecko (" ++ goToUpper s ++ ")", price := "0.00" } := by
  have hval : goRead (goRead m id []) "usd" (0 : Rat) = 0 := by
    rcases habs with h | h
    · simp only [goRead]
      rw [h]
      rfl
    · simp only [goRead] at h ⊢
      rw [h]
      rfl
  have hcg : Main.getPriceFromCoinGecko net s =
      { price := "0.00", err := none, requests := [coinGeckoURL id] } := by
    simp [Main.getPriceFromCoinGecko, hid, fetchPrice, hnet, hdec, hval]
    rfl
  refine ⟨hcg, ?_⟩
  simp [Main.fetchPricesConcurrently, Main.sources, Main.slotEntry, Main.maskErr, hcg]

/-- Witness for C10: CoinGecko answers 200 with an object holding only
`ethereum`, so a BTC request reports the healthy-looking price `0.00`. -/
theorem c10_coingecko_zero_default_witness :
    Main.getPriceFromCoinGecko missingCoinIdNet "BTC" =
      { price := "0.00", err := none, requests := [coinGeckoURL "bitcoin"] } ∧
    (Main.fetchPricesConcurrently missingCoinIdNet "BTC")[1]? =
      some { source := "CoinGecko (" ++ goToUpper "BTC" ++ ")", price := "0.00" } :=
  c10_coingecko_zero_default missingCoinIdNet "BTC" "bitcoin"
    (Json.obj [("ethereum", Json.obj [("usd", Json.num 5)])])
    [("ethereum", [("usd", (5 : Rat))])] rfl rfl rfl (Or.inl rfl)
